import Mathlib

/-!
# Verification of the segpath mask-to-prompt pipeline

Shallow embedding of the prompt-synthesis logic of the segpath repository:
`scripts/5_create_text_prompt.py`, `scripts/prompt_augmenter.py` and the
prompt-rendering slice of `scripts/select_val_samples.py`.

Conventions of the embedding:
* a raster mask (the result of `cv2.imread(..., IMREAD_GRAYSCALE)`) is a list
  of rows of natural-number pixel codes; a failed read (`None` in Python) is
  `Option.none`;
* Python dictionaries used only for lookup (`label_to_name`, `class_codes`,
  `detailed_labels`) are association lists queried with `List.lookup`;
* floating-point percentages are modelled as exact rationals; the `"{:.2f}"`
  format is modelled by round-half-to-even at two decimals, which agrees with
  Python's formatting on the exactly-representable values used here;
* Python's string primitives (`str.split`, `str.replace`, `str.lower`,
  `str.join`, `str.endswith`) are implemented by structural recursion on the
  character list of the string, with the semantics of the Python originals;
* the prompt template (`str.format` with the single named placeholder
  `{class_descriptions}`) is modelled as the pair of strings around the
  placeholder;
* the random choice made by `random.choice` is passed in explicitly as the
  chosen element.
-/

namespace SegPath

/-! ## Python string primitives -/

/-- Split a character list at every character satisfying `p`, keeping empty
segments: the semantics of Python `str.split(sep)` for a one-character
separator when `p` tests for that separator.  The result is never empty. -/
def splitAtPred (p : Char → Bool) : List Char → List (List Char)
  | [] => [[]]
  | c :: cs =>
    if p c then [] :: splitAtPred p cs
    else
      match splitAtPred p cs with
      | [] => [[c]]
      | t :: ts => (c :: t) :: ts

/-- Python `s.split('_')`-style split of a string at a separator char. -/
def pySplitOnChar (sep : Char) (s : String) : List String :=
  (splitAtPred (fun c => c == sep) s.toList).map List.asString

/-- Python `s.split()` (no argument): the maximal whitespace-free tokens. -/
def pySplit (s : String) : List String :=
  ((splitAtPred Char.isWhitespace s.toList).filter fun t => !t.isEmpty).map List.asString

/-- `len(s.split())`: the whitespace-separated token count of a string. -/
def word_count (s : String) : Nat :=
  (pySplit s).length

/-- Python `sep.join(parts)`. -/
def pyJoin (sep : String) : List String → String
  | [] => ""
  | [s] => s
  | s :: rest => s ++ sep ++ pyJoin sep rest

/-- Python `s.endswith(suffix)`. -/
def pyEndsWith (s suf : String) : Bool :=
  s.toList.reverse.take suf.toList.length == suf.toList.reverse

/-! ## Data model -/

/-- A grayscale raster mask: rows of pixel label codes.
Mirrors the 2-D `numpy` array returned by `cv2.imread`. -/
structure Mask where
  rows : List (List Nat)
deriving DecidableEq

/-- The flattened pixel sequence of a mask (row-major, as `numpy` flattens). -/
def Mask.pixels (m : Mask) : List Nat :=
  m.rows.flatten

/-- `mask.size` in numpy: the total number of pixels. -/
def Mask.size (m : Mask) : Nat :=
  m.pixels.length

/-- A prompt template with a single `{class_descriptions}` placeholder:
the text before and after the placeholder. -/
structure PromptTemplate where
  pre : String
  post : String
deriving DecidableEq

/-- `template.format(class_descriptions=d)` from Python. -/
def PromptTemplate.render (t : PromptTemplate) (d : String) : String :=
  t.pre ++ d ++ t.post

/-- The default template `"pathology image: {class_descriptions}"` used by
`config["settings"].get("prompt_template", ...)`. -/
def defaultTemplate : PromptTemplate :=
  ⟨"pathology image: ", ""⟩

/-- The configuration values consulted by `process_mask` and `main` in
`5_create_text_prompt.py` (after path resolution). -/
structure Config where
  prompt_template : PromptTemplate
  source_dir_name : String
  target_dir_name : String
deriving DecidableEq

/-- A concrete configuration using the default template, for scenarios. -/
def cfgDefault : Config :=
  ⟨defaultTemplate, "source", "target"⟩

/-! ## Helper functions of `5_create_text_prompt.py` -/

/-- `extract_class_name` from `5_create_text_prompt.py` (and its copies):
split the filename on `'_'` and join the first two components. -/
def extract_class_name (filename : String) : Option String :=
  match pySplitOnChar '_' filename with
  | p0 :: p1 :: _ => some (p0 ++ "_" ++ p1)
  | _ => none

/-- `clean_class_name` from `5_create_text_prompt.py`: replace underscores
and commas by spaces, lowercase, collapse repeated whitespace. -/
def clean_class_name (class_name : String) : String :=
  let replaced := class_name.toList.map fun c => if c = '_' || c = ',' then ' ' else c
  let lowered := (replaced.map Char.toLower).asString
  pyJoin " " (pySplit lowered)

/-- Round-half-to-even of the fraction `a / b` (for `b > 0`) to an integer:
the tie-breaking used by Python's fixed-point string formatting. -/
def roundHalfEvenFrac (a b : ℤ) : ℤ :=
  let f : ℤ := Int.fdiv a b
  let r2 : ℤ := 2 * (a - f * b)
  if r2 < b then f
  else if b < r2 then f + 1
  else if f % 2 = 0 then f else f + 1

/-- The Python format specifier `"{:.2f}"` on an exact rational value:
round `q * 100` half-to-even to an integer and print it with a decimal
point before the last two digits. -/
def format2 (q : ℚ) : String :=
  let n : ℤ := roundHalfEvenFrac (q.num * 100) (q.den : ℤ)
  let m : Nat := n.natAbs
  let frac : Nat := m % 100
  let fracStr : String := (if frac < 10 then "0" else "") ++ toString frac
  (if n < 0 then "-" else "") ++ toString (m / 100) ++ "." ++ fracStr

/-- `create_prompt` from `5_create_text_prompt.py`: join the
`(class-name, percentage)` pairs as `"{name} {pct:.2f}%"` with `", "` and
substitute into the template. -/
def create_prompt (class_percentages : List (String × ℚ)) (t : PromptTemplate) : String :=
  t.render (pyJoin ", " (class_percentages.map fun p => p.1 ++ " " ++ format2 p.2 ++ "%"))

/-- `(count / total_pixels) * 100`, computed exactly. -/
def percentage (count total : Nat) : ℚ :=
  (count : ℚ) / (total : ℚ) * 100

/-- The `unique_labels`/`counts` pairing built by `process_mask`
(lines 70-71): background `0` with the number of zero pixels, and the
filename-derived class index with the number of nonzero pixels. -/
def mask_counts (m : Mask) (class_idx : Nat) : List (Nat × Nat) :=
  [(0, m.pixels.countP fun p => p == 0),
   (class_idx, m.pixels.countP fun p => decide (0 < p))]

/-- The `class_percentages` list built by `process_mask` (lines 79-85):
every label of the summary that has an entry in `label_to_name` contributes
its cleaned name and percentage; there is no percentage-based condition. -/
def retained_pairs (label_to_name : List (Nat × String)) (class_idx : Nat)
    (m : Mask) : List (String × ℚ) :=
  (mask_counts m class_idx).filterMap fun lc =>
    (label_to_name.lookup lc.1).map fun nm =>
      (clean_class_name nm, percentage lc.2 m.size)

/-- `list.sort(key=lambda x: x[1])`: stable ascending sort on the
percentage component. -/
def sort_by_percentage (l : List (String × ℚ)) : List (String × ℚ) :=
  l.insertionSort fun a b => a.2 ≤ b.2

/-- `process_mask` from `5_create_text_prompt.py`.  The file read
`cv2.imread` is passed in as `imread : Option Mask` (`none` models an
unreadable file).  The intermediate `labeled_mask` of lines 65-67 is built by
the script but never consulted by the later steps, so it has no counterpart
here.  Returns `none` exactly where the Python function returns `None`. -/
def process_mask (mask_name : String) (label_to_name : List (Nat × String))
    (class_codes : List (String × Nat)) (config : Config)
    (imread : Option Mask) (filter_background : Bool) : Option String :=
  match extract_class_name mask_name with
  | none => none
  | some class_name =>
    match class_codes.lookup class_name with
    | none => none
    | some class_idx =>
      match imread with
      | none => none
      | some mask =>
        let counts1 := mask.pixels.countP fun p => decide (0 < p)
        if filter_background && counts1 == 0 then none
        else
          let class_percentages := retained_pairs label_to_name class_idx mask
          let prompt :=
            create_prompt (sort_by_percentage class_percentages) config.prompt_template
          some (if class_percentages.isEmpty
                then config.prompt_template.render "background"
                else prompt)

/-- The diagnostic line printed by `process_mask` on its failure paths
(`None` results): a warning when the class cannot be determined, an error
when the image cannot be loaded. -/
def process_mask_log (mask_name : String) (class_codes : List (String × Nat))
    (imread : Option Mask) : Option String :=
  match extract_class_name mask_name with
  | none => some ("\nWarning: Could not determine class for " ++ mask_name)
  | some class_name =>
    match class_codes.lookup class_name with
    | none => some ("\nWarning: Could not determine class for " ++ mask_name)
    | some _ =>
      match imread with
      | none => some ("\nError: Could not load mask at " ++ mask_name)
      | some _ => none

/-! ## The prompt-rendering slice of `select_val_samples.py`

`select_samples` (lines 178-194) computes `percentages` from the
`class_areas` tally, keeps the non-background classes with a strictly
positive percentage that appear in `detailed_labels`, sorts ascending by
percentage and renders with `create_prompt` — with no fallback for an empty
list. -/

/-- Lines 178-194 of `select_val_samples.py`: from the `(code, pixel-count)`
tally `class_areas` over `total_pixels` pixels, render the combined-mask
prompt. -/
def select_samples_prompt (class_areas : List (Nat × Nat)) (total_pixels : Nat)
    (detailed_labels : List (Nat × String)) (t : PromptTemplate) : String :=
  let percentages := class_areas.map fun p => (p.1, percentage p.2 total_pixels)
  let class_percentages := percentages.filterMap fun p =>
    if 0 < p.1 ∧ 0 < p.2 then
      (detailed_labels.lookup p.1).map fun nm => (clean_class_name nm, p.2)
    else none
  create_prompt (sort_by_percentage class_percentages) t

/-! ## `prompt_augmenter.py` -/

/-- The module-level `technical_details` corpus of `prompt_augmenter.py`. -/
def technical_details : List String :=
  ["SegPath is a large-scale dataset for semantic segmentation of cancer histology images[cite: 1, 18].",
   "Created using a restaining-based annotation workflow involving H&E and immunofluorescence (IF) staining[cite: 1, 19, 51, 226].",
   "Dataset designed for training deep learning models for accurate tissue/cell segmentation in pathology[cite: 4, 11, 17, 224].",
   "Contains annotations for eight major cell/tissue types: epithelium, smooth muscle/myofibroblast, lymphocyte, leukocyte, endothelial cell, plasma cell, myeloid cell, and red blood cell[cite: 1, 18, 86, 111].",
   "Includes over 158,000 annotated patches from 1,583 patients across 18 different organs[cite: 1, 96, 97].",
   "Claims to be the largest annotation dataset (>10x larger than previous public datasets) for cancer histology segmentation[cite: 18, 95].",
   "IF-based annotations aim to be more accurate and less morphologically biased than conventional human annotations by pathologists[cite: 3, 13, 20, 52, 165, 231].",
   "Annotation workflow uses carefully selected antibodies specific to target cell types[cite: 53, 99, 100].",
   "Dataset generation involves multi-step image registration to align H&E and IF images accurately[cite: 62, 63, 76, 297, 298].",
   "Segmentation masks are generated based on IF intensity cut-offs, refined iteratively using deep learning models[cite: 68, 78, 84, 87, 338].",
   "Enables the development of accurate segmentation models for computer-aided diagnosis and cancer research[cite: 4, 14, 26, 247].",
   "Models trained on SegPath can potentially identify cells with atypical morphologies missed by pathologists[cite: 21, 153, 175, 187, 251].",
   "Supports research into the tumor microenvironment through detailed cell distribution analysis[cite: 16, 225].",
   "The dataset is publicly available via Zenodo, with links provided on a dedicated webpage[cite: 55, 256, 257].",
   "Associated paper: \x27Restaining-based annotation for cancer histology segmentation to overcome annotation-related limitations among pathologists\x27 (Komura et al., 2023, Patterns)[cite: 1, 7]."]

/-- `augment_prompt` from `prompt_augmenter.py`.  The sentence picked by
`random.choice(technical_details)` is passed in as `choice` (the injected
randomness source); it is consulted only on the augmenting branch. -/
def augment_prompt (original_prompt : String) (use_augmentation : Bool)
    (choice : String) : String :=
  if !use_augmentation || 55 ≤ word_count original_prompt then original_prompt
  else original_prompt ++ "\nContext: " ++ choice

/-! ## The dataset emitter (`main` of `5_create_text_prompt.py`) -/

/-- One JSON-lines record written by `main`: the `source`, `target` and
`prompt` fields. -/
structure PromptRecord where
  source : String
  target : String
  prompt : String
deriving DecidableEq

/-- The mutable run state of `main`'s batch loop: the records written so
far, the `processed_files` and `augmented_prompts` counters, and the lines
printed for skipped files. -/
structure EmitState where
  records : List PromptRecord
  processed : Nat
  augmented : Nat
  logs : List String
deriving DecidableEq

/-- The empty run state at the start of the batch loop. -/
def EmitState.init : EmitState :=
  ⟨[], 0, 0, []⟩

/-- Combine two run states sequentially: records and logs concatenate,
counters add.  (Bookkeeping device for reasoning about the fold.) -/
def EmitState.seq (a b : EmitState) : EmitState :=
  ⟨a.records ++ b.records, a.processed + b.processed,
   a.augmented + b.augmented, a.logs ++ b.logs⟩

/-- One iteration of `main`'s loop (lines 180-206) on the file
`(name, imread-result)`: run `process_mask`, collect its diagnostic line,
and if the prompt is non-null and does not end in `": "`, augment it and
append one record, bumping the counters as the script does.  `choose`
supplies the context sentence `random.choice` would pick for this file. -/
def emit_step (label_to_name : List (Nat × String)) (class_codes : List (String × Nat))
    (config : Config) (filter_background use_augmentation : Bool)
    (choose : String → String) (st : EmitState) (file : String × Option Mask) : EmitState :=
  let st := { st with logs := st.logs ++ (process_mask_log file.1 class_codes file.2).toList }
  match process_mask file.1 label_to_name class_codes config file.2 filter_background with
  | none => st
  | some prompt =>
    if pyEndsWith prompt ": " then st
    else
      let prompt2 := augment_prompt prompt use_augmentation (choose file.1)
      { st with
        records := st.records ++
          [⟨config.source_dir_name ++ "/" ++ file.1,
            config.target_dir_name ++ "/" ++ file.1, prompt2⟩],
        processed := st.processed + 1,
        augmented := if word_count prompt < word_count prompt2
                     then st.augmented + 1 else st.augmented }

/-- `main`'s batch loop over the listed mask files. -/
def emit_run (label_to_name : List (Nat × String)) (class_codes : List (String × Nat))
    (config : Config) (filter_background use_augmentation : Bool)
    (choose : String → String) (files : List (String × Option Mask)) : EmitState :=
  files.foldl (emit_step label_to_name class_codes config filter_background
    use_augmentation choose) EmitState.init

/-- The `Filtered out` figure of `main`'s summary:
`total_files - processed_files`.  Files that failed to load are counted
here together with files rejected by the filtering policy. -/
def filtered_out (files : List (String × Option Mask)) (st : EmitState) : Nat :=
  files.length - st.processed

/-! ## Concrete scenario inputs -/

/-- A 10×10 mask with 99 background pixels and one foreground pixel:
the foreground class covers exactly 1% of the area. -/
def maskOnePct : Mask :=
  ⟨[List.replicate 99 0 ++ [1]]⟩

/-- The §8 scenario mask: a 10×10 grid with 80 pixels of code 0 and
20 pixels of code 3. -/
def maskScenario : Mask :=
  ⟨List.replicate 8 (List.replicate 10 0) ++ List.replicate 2 (List.replicate 10 3)⟩

/-- A mask holding the three distinct codes 0, 3 and 5. -/
def maskMixed : Mask :=
  ⟨[[0, 3, 5, 5]]⟩

/-! ## Shared lemmas -/

instance : IsTotal (String × ℚ) (fun a b => a.2 ≤ b.2) :=
  ⟨fun a b => le_total a.2 b.2⟩

instance : IsTrans (String × ℚ) (fun a b => a.2 ≤ b.2) :=
  ⟨fun _ _ _ h1 h2 => le_trans h1 h2⟩

/-- Every pixel is either zero or positive, so the two tallies of
`mask_counts` split the pixel list exactly. -/
lemma countP_zero_add_pos (l : List Nat) :
    l.countP (fun p => p == 0) + l.countP (fun p => decide (0 < p)) = l.length := by
  rw [List.length_eq_countP_add_countP (fun p => p == 0)]
  congr 1
  apply List.countP_congr
  intro x _
  cases x <;> simp

/-- `process_mask` on a successfully loaded mask returns `None` exactly when
the background filter is on and the mask has no foreground pixel. -/
lemma process_mask_none_iff (mask_name cn : String) (ci : Nat)
    (label_to_name : List (Nat × String)) (class_codes : List (String × Nat))
    (config : Config) (m : Mask) (fb : Bool)
    (h1 : extract_class_name mask_name = some cn)
    (h2 : class_codes.lookup cn = some ci) :
    process_mask mask_name label_to_name class_codes config (some m) fb = none ↔
      fb = true ∧ m.pixels.countP (fun p => decide (0 < p)) = 0 := by
  unfold process_mask
  rw [h1]; dsimp only; rw [h2]; dsimp only
  by_cases hc : fb && (m.pixels.countP fun p => decide (0 < p)) == 0
  · simp only [hc, if_true]
    simp only [Bool.and_eq_true, beq_iff_eq] at hc
    simp [hc]
  · simp only [hc, if_false]
    simp only [Bool.and_eq_true, beq_iff_eq, not_and] at hc
    constructor
    · intro h; cases h
    · intro ⟨ha, hb⟩; exact absurd hb (hc ha)

/-! ## Claim C1 -/

/-- C1 counterexample: `process_mask` applies no minimum-percentage filter.
On a 10×10 mask whose class covers exactly 1% of the pixels — at the claimed
default minimum of 1.0 — the class is retained and rendered in the prompt
text as `"rbc marker 1.00%"`, refuting the claim that entries at or below
`min_class_percentage` are dropped. -/
theorem c1_counterexample :
    retained_pairs [(3, "RBC_marker")] 3 maskOnePct
      = [("rbc marker", percentage 1 100)] ∧
    percentage 1 100 ≤ 1 ∧
    process_mask "CD235a_RBC_0_mask.png" [(3, "RBC_marker")] [("CD235a_RBC", 3)]
      cfgDefault (some maskOnePct) false = some "pathology image: rbc marker 1.00%" := by
  refine ⟨by rfl, by norm_num [percentage], ?_⟩
  have step : process_mask "CD235a_RBC_0_mask.png" [(3, "RBC_marker")] [("CD235a_RBC", 3)]
      cfgDefault (some maskOnePct) false
      = some (create_prompt [("rbc marker", percentage 1 100)] defaultTemplate) := by rfl
  rw [step, show percentage 1 100 = 1 by norm_num [percentage]]
  decide

/-- C1 amended: no `min_class_percentage` option exists.  Every label of the
area summary that has an entry in the description registry is retained in
the `(class-name, percentage)` list used to render the prompt, with no
percentage-based condition whatsoever. -/
theorem c1_no_percentage_filter (label_to_name : List (Nat × String))
    (class_idx : Nat) (m : Mask) (label : Nat) (nm : String)
    (hl : label = 0 ∨ label = class_idx)
    (hn : label_to_name.lookup label = some nm) :
    ∃ q : ℚ, (clean_class_name nm, q) ∈ retained_pairs label_to_name class_idx m := by
  rcases hl with rfl | rfl
  · exact ⟨percentage (m.pixels.countP fun p => p == 0) m.size,
      List.mem_filterMap.mpr
        ⟨(0, m.pixels.countP fun p => p == 0), by simp [mask_counts], by simp [hn]⟩⟩
  · exact ⟨percentage (m.pixels.countP fun p => decide (0 < p)) m.size,
      List.mem_filterMap.mpr
        ⟨(label, m.pixels.countP fun p => decide (0 < p)), by simp [mask_counts], by simp [hn]⟩⟩

/-- C1 witness: the background label of a concrete registry is retained. -/
theorem c1_witness :
    ((0 : Nat) = 0 ∨ (0 : Nat) = 5) ∧
    List.lookup 0 [(0, "bg")] = some "bg" ∧
    ∃ q : ℚ, (clean_class_name "bg", q) ∈ retained_pairs [(0, "bg")] 5 ⟨[[0]]⟩ :=
  ⟨Or.inl rfl, rfl,
   c1_no_percentage_filter [(0, "bg")] 5 ⟨[[0]]⟩ 0 "bg" (Or.inl rfl) rfl⟩

/-! ## Claim C2 -/

/-- C2 counterexample: there is no threshold filtering rule.  On a mask
whose background covers 99% of the pixels — above the claimed default
threshold of 98% — `process_mask` retains the mask under both values of
`filter_background`, the only filtering flag the code has. -/
theorem c2_counterexample :
    (98 : ℚ) < percentage 99 100 ∧
    (process_mask "CD235a_RBC_0_mask.png" [(3, "RBC_marker")] [("CD235a_RBC", 3)]
      cfgDefault (some maskOnePct) true).isSome = true ∧
    (process_mask "CD235a_RBC_0_mask.png" [(3, "RBC_marker")] [("CD235a_RBC", 3)]
      cfgDefault (some maskOnePct) false).isSome = true := by
  refine ⟨by norm_num [percentage], by rfl, by rfl⟩

/-- C2 amended: the only exclusion rule `process_mask` applies to a
successfully loaded mask is the background-only rule: the mask is dropped
iff `filter_background` is set and the mask has no foreground pixel.  No
background-percentage threshold is consulted. -/
theorem c2_only_background_rule (mask_name cn : String) (ci : Nat)
    (label_to_name : List (Nat × String)) (class_codes : List (String × Nat))
    (config : Config) (m : Mask) (fb : Bool)
    (h1 : extract_class_name mask_name = some cn)
    (h2 : class_codes.lookup cn = some ci) :
    process_mask mask_name label_to_name class_codes config (some m) fb = none ↔
      fb = true ∧ m.pixels.countP (fun p => decide (0 < p)) = 0 :=
  process_mask_none_iff mask_name cn ci label_to_name class_codes config m fb h1 h2

/-- C2 witness: the exclusion characterization instantiated on an
all-background mask with the filter enabled. -/
theorem c2_witness :
    extract_class_name "CD235a_RBC_0_mask.png" = some "CD235a_RBC" ∧
    List.lookup "CD235a_RBC" [("CD235a_RBC", 3)] = some 3 ∧
    (process_mask "CD235a_RBC_0_mask.png" [] [("CD235a_RBC", 3)] cfgDefault
        (some ⟨[[0, 0]]⟩) true = none ↔
      true = true ∧ (Mask.pixels ⟨[[0, 0]]⟩).countP (fun p => decide (0 < p)) = 0) :=
  ⟨by decide, by decide,
   c2_only_background_rule "CD235a_RBC_0_mask.png" "CD235a_RBC" 3 [] [("CD235a_RBC", 3)]
     cfgDefault ⟨[[0, 0]]⟩ true (by decide) (by decide)⟩

/-! ## Claim C3 -/

/-- C3 counterexample: the summary does not tally each distinct pixel value.
On a mask holding codes 0, 3 (one pixel) and 5 (two pixels) with class index
3, the summary is `[(0, 1), (3, 3)]`: code 5 has no entry of its own, and
code 3's entry (3 pixels) is not the number of pixels carrying code 3 (1). -/
theorem c3_counterexample :
    mask_counts maskMixed 3 = [(0, 1), (3, 3)] ∧
    maskMixed.pixels.count 5 = 2 ∧
    maskMixed.pixels.count 3 = 1 ∧
    ((5, 2) ∉ mask_counts maskMixed 3) ∧
    ((3, 1) ∉ mask_counts maskMixed 3) := by
  decide

/-- C3 amended: the summary built by `process_mask` is binary — code 0 with
the zero-pixel count and the filename-derived class index with the count of
all nonzero pixels.  Distinct nonzero values are merged: the summary depends
only on how many pixels are zero and how many are not. -/
theorem c3_binary_summary (m1 m2 : Mask) (class_idx : Nat)
    (h0 : m1.pixels.countP (fun p => p == 0) = m2.pixels.countP (fun p => p == 0))
    (hlen : m1.pixels.length = m2.pixels.length) :
    mask_counts m1 class_idx = mask_counts m2 class_idx := by
  have e1 := countP_zero_add_pos m1.pixels
  have e2 := countP_zero_add_pos m2.pixels
  have hpos : m1.pixels.countP (fun p => decide (0 < p))
      = m2.pixels.countP (fun p => decide (0 < p)) := by omega
  unfold mask_counts
  rw [h0, hpos]

/-- C3 witness: two masks with the same zero/nonzero split but different
nonzero codes get identical summaries. -/
theorem c3_witness :
    (Mask.pixels ⟨[[0, 3]]⟩).countP (fun p => p == 0)
      = (Mask.pixels ⟨[[0, 7]]⟩).countP (fun p => p == 0) ∧
    (Mask.pixels ⟨[[0, 3]]⟩).length = (Mask.pixels ⟨[[0, 7]]⟩).length ∧
    mask_counts ⟨[[0, 3]]⟩ 3 = mask_counts ⟨[[0, 7]]⟩ 3 :=
  ⟨by decide, by decide, c3_binary_summary ⟨[[0, 3]]⟩ ⟨[[0, 7]]⟩ 3 (by decide) (by decide)⟩

/-! ## Claim C4 -/

/-- C4 counterexample: the `select_val_samples.py` renderer has no fallback.
When no class passes retention (here: only background area, the one class
entry having zero pixels), it renders the template with an empty
description — `"pathology image: "` — not with `"background"`. -/
theorem c4_counterexample :
    select_samples_prompt [(0, 100), (3, 0)] 100 [(3, "RBC_marker")] defaultTemplate
      = "pathology image: " ∧
    "pathology image: " ≠ PromptTemplate.render defaultTemplate "background" := by
  constructor
  · have h0 : percentage 0 100 = 0 := by norm_num [percentage]
    simp [select_samples_prompt, h0, sort_by_percentage, create_prompt, pyJoin,
      PromptTemplate.render, defaultTemplate]
  · decide

/-- C4 amended: in `5_create_text_prompt.py`, whenever the retained list is
empty, `process_mask` substitutes the literal `"background"` into the
template, so that script never renders an empty placeholder; the
`select_val_samples.py` renderer lacks this fallback. -/
theorem c4_background_fallback (mask_name cn : String) (ci : Nat)
    (label_to_name : List (Nat × String)) (class_codes : List (String × Nat))
    (config : Config) (m : Mask)
    (h1 : extract_class_name mask_name = some cn)
    (h2 : class_codes.lookup cn = some ci)
    (hempty : retained_pairs label_to_name ci m = []) :
    process_mask mask_name label_to_name class_codes config (some m) false
      = some (config.prompt_template.render "background") := by
  unfold process_mask
  rw [h1]; dsimp only; rw [h2]; dsimp only
  simp [hempty]

/-- C4 witness: with an empty description registry the fallback fires. -/
theorem c4_witness :
    extract_class_name "CD235a_RBC_0_mask.png" = some "CD235a_RBC" ∧
    List.lookup "CD235a_RBC" [("CD235a_RBC", 3)] = some 3 ∧
    retained_pairs [] 3 ⟨[[0, 5]]⟩ = [] ∧
    process_mask "CD235a_RBC_0_mask.png" [] [("CD235a_RBC", 3)] cfgDefault
      (some ⟨[[0, 5]]⟩) false = some (cfgDefault.prompt_template.render "background") :=
  ⟨by decide, by decide, by decide,
   c4_background_fallback "CD235a_RBC_0_mask.png" "CD235a_RBC" 3 [] [("CD235a_RBC", 3)]
     cfgDefault ⟨[[0, 5]]⟩ (by decide) (by decide) (by decide)⟩

/-! ## Claim C5 -/

/-- C5: the `(class-name, percentage)` list that both renderers pass to
`create_prompt` — the output of `sort_by_percentage` — always has
non-decreasing percentages left-to-right. -/
theorem c5_sorted_ascending (l : List (String × ℚ)) :
    List.Sorted (fun a b => a.2 ≤ b.2) (sort_by_percentage l) :=
  List.sorted_insertionSort _ l

/-! ## Claim C6 -/

/-- C6: `create_prompt` joins the retained pairs as `"{name} {pct:.2f}%"`
with `", "` and substitutes into the template's placeholder; on the §8
scenario (10×10 mask, 80 pixels of code 0, 20 of code 3, registry mapping
code 3 to `"RBC_marker"` and omitting code 0, default template) the summary
counts are `{0: 80, 3: 20}`, the percentages 80% and 20%, and the rendered
text is exactly `"pathology image: rbc marker 20.00%"`. -/
theorem c6_render_scenario :
    (∀ t : PromptTemplate, create_prompt [("a", 1), ("b", 2), ("c", 3)] t
        = t.render "a 1.00%, b 2.00%, c 3.00%") ∧
    mask_counts maskScenario 3 = [(0, 80), (3, 20)] ∧
    percentage 80 100 = 80 ∧
    percentage 20 100 = 20 ∧
    clean_class_name "RBC_marker" = "rbc marker" ∧
    process_mask "CD235a_RBC_033_026624_045056_mask.png" [(3, "RBC_marker")]
      [("CD235a_RBC", 3)] cfgDefault (some maskScenario) false
      = some "pathology image: rbc marker 20.00%" := by
  refine ⟨fun t => rfl, by decide, by norm_num [percentage], by norm_num [percentage],
    by decide, ?_⟩
  have step : process_mask "CD235a_RBC_033_026624_045056_mask.png" [(3, "RBC_marker")]
      [("CD235a_RBC", 3)] cfgDefault (some maskScenario) false
      = some (create_prompt [("rbc marker", percentage 20 100)] defaultTemplate) := by rfl
  rw [step, show percentage 20 100 = 20 by norm_num [percentage]]
  decide

/-! ## Claim C7 -/

/-- C7: `augment_prompt` returns any prompt with at least 55
whitespace-separated tokens unchanged regardless of the flag, returns every
prompt unchanged when the flag is off, and otherwise appends a newline, the
literal `"Context: "` label and the corpus sentence that was chosen. -/
theorem c7_augment_guard :
    (∀ (p : String) (e : Bool) (c : String), 55 ≤ word_count p →
        augment_prompt p e c = p) ∧
    (∀ p c : String, augment_prompt p false c = p) ∧
    (∀ p c : String, word_count p < 55 → c ∈ technical_details →
        augment_prompt p true c = p ++ "\nContext: " ++ c) := by
  refine ⟨fun p e c h => ?_, fun p c => ?_, fun p c h _ => ?_⟩
  · simp [augment_prompt, h]
  · simp [augment_prompt]
  · simp [augment_prompt, Nat.not_le.mpr h]

/-- A 55-token prompt for exercising the word-budget guard. -/
def prompt55 : String :=
  pyJoin " " (List.replicate 55 "word")

/-- C7 witness: the three branches at concrete inputs, including the §8
scenario `augment("short caption", enabled=True)` with a chosen corpus
sentence. -/
theorem c7_witness :
    (55 ≤ word_count prompt55 ∧ augment_prompt prompt55 true "x" = prompt55) ∧
    augment_prompt "short caption" false "x" = "short caption" ∧
    (word_count "short caption" < 55 ∧
      "Annotation workflow uses carefully selected antibodies specific to target cell types[cite: 53, 99, 100]." ∈ technical_details ∧
      augment_prompt "short caption" true
          "Annotation workflow uses carefully selected antibodies specific to target cell types[cite: 53, 99, 100]."
        = "short caption\nContext: Annotation workflow uses carefully selected antibodies specific to target cell types[cite: 53, 99, 100].") :=
  ⟨⟨by decide, c7_augment_guard.1 prompt55 true "x" (by decide)⟩,
   c7_augment_guard.2.1 "short caption" "x",
   by decide, by decide,
   c7_augment_guard.2.2 "short caption" _ (by decide) (by decide)⟩

/-! ## Claim C8 -/

/-- C8: with the background-only rule enabled, a mask whose pixels are all
zero is excluded by `process_mask`; with the rule disabled, no successfully
loaded mask is ever excluded, whatever its content. -/
theorem c8_background_rule :
    (∀ (mask_name : String) (label_to_name : List (Nat × String))
        (class_codes : List (String × Nat)) (config : Config) (m : Mask),
        (∀ p ∈ m.pixels, p = 0) →
        process_mask mask_name label_to_name class_codes config (some m) true = none) ∧
    (∀ (mask_name cn : String) (ci : Nat) (label_to_name : List (Nat × String))
        (class_codes : List (String × Nat)) (config : Config) (m : Mask),
        extract_class_name mask_name = some cn →
        class_codes.lookup cn = some ci →
        (process_mask mask_name label_to_name class_codes config (some m)
          false).isSome = true) := by
  constructor
  · intro mask_name label_to_name class_codes config m h
    match hx : extract_class_name mask_name with
    | none => unfold process_mask; rw [hx]
    | some cn =>
      match hy : class_codes.lookup cn with
      | none => unfold process_mask; rw [hx]; dsimp only; rw [hy]
      | some ci =>
        have hc : m.pixels.countP (fun p => decide (0 < p)) = 0 :=
          List.countP_eq_zero.mpr (fun a ha => by simp [h a ha])
        rw [process_mask_none_iff mask_name cn ci label_to_name class_codes config m
          true hx hy]
        exact ⟨rfl, hc⟩
  · intro mask_name cn ci label_to_name class_codes config m h1 h2
    unfold process_mask
    rw [h1]; dsimp only; rw [h2]; dsimp only
    simp

/-- C8 witness: an all-background mask is dropped with the flag on; a mask
with foreground is kept with the flag off. -/
theorem c8_witness :
    process_mask "CD235a_RBC_0_mask.png" [] [("CD235a_RBC", 3)] cfgDefault
      (some ⟨[[0, 0]]⟩) true = none ∧
    (process_mask "CD235a_RBC_0_mask.png" [] [("CD235a_RBC", 3)] cfgDefault
      (some ⟨[[0, 5]]⟩) false).isSome = true :=
  ⟨c8_background_rule.1 "CD235a_RBC_0_mask.png" [] [("CD235a_RBC", 3)] cfgDefault
     ⟨[[0, 0]]⟩ (by decide),
   c8_background_rule.2 "CD235a_RBC_0_mask.png" "CD235a_RBC" 3 [] [("CD235a_RBC", 3)]
     cfgDefault ⟨[[0, 5]]⟩ (by decide) (by decide)⟩

/-! ## Claim C9 -/

/-- C9: for every mask of `h` rows that all have width `w`, the per-label
counts of the area summary sum exactly to the total pixel count `h * w`. -/
theorem c9_counts_sum_total (m : Mask) (class_idx h w : Nat)
    (hh : m.rows.length = h) (hw : ∀ r ∈ m.rows, r.length = w) :
    ((mask_counts m class_idx).map Prod.snd).sum = h * w := by
  have hsplit := countP_zero_add_pos m.pixels
  have hmap : m.rows.map List.length = List.replicate h w := by
    rw [List.eq_replicate_iff]
    refine ⟨by simpa using hh, ?_⟩
    intro b hb
    obtain ⟨r, hr, rfl⟩ := List.mem_map.mp hb
    exact hw r hr
  have hlen : m.pixels.length = h * w := by
    rw [Mask.pixels, List.length_flatten, hmap, List.sum_replicate, smul_eq_mul]
  simp only [mask_counts, List.map_cons, List.map_nil, List.sum_cons, List.sum_nil]
  omega

/-- C9 witness: a 2×3 mask's summary counts sum to 6. -/
theorem c9_witness :
    (Mask.rows ⟨[[0, 1, 2], [3, 0, 5]]⟩).length = 2 ∧
    ((mask_counts ⟨[[0, 1, 2], [3, 0, 5]]⟩ 7).map Prod.snd).sum = 2 * 3 :=
  ⟨rfl, c9_counts_sum_total ⟨[[0, 1, 2], [3, 0, 5]]⟩ 7 2 3 rfl (by decide)⟩

/-! ## Emitter bookkeeping lemmas -/

lemma EmitState.seq_init_left (a : EmitState) : EmitState.init.seq a = a := by
  simp [EmitState.seq, EmitState.init]

lemma EmitState.seq_init_right (a : EmitState) : a.seq EmitState.init = a := by
  simp [EmitState.seq, EmitState.init]

lemma EmitState.seq_assoc (a b c : EmitState) :
    (a.seq b).seq c = a.seq (b.seq c) := by
  simp [EmitState.seq, Nat.add_assoc]

/-- One emitter iteration only appends to the incoming state: it equals the
state combined with the iteration's effect from the empty state. -/
lemma emit_step_seq (label_to_name : List (Nat × String))
    (class_codes : List (String × Nat)) (config : Config) (fb ua : Bool)
    (choose : String → String) (st : EmitState) (f : String × Option Mask) :
    emit_step label_to_name class_codes config fb ua choose st f
      = st.seq (emit_step label_to_name class_codes config fb ua choose EmitState.init f) := by
  unfold emit_step
  cases hp : process_mask f.1 label_to_name class_codes config f.2 fb with
  | none => simp [EmitState.seq, EmitState.init]
  | some prompt =>
    by_cases he : pyEndsWith prompt ": " = true
    · simp [he, EmitState.seq, EmitState.init]
    · by_cases ha : word_count prompt
          < word_count (augment_prompt prompt ua (choose f.1))
      · simp [he, ha, EmitState.seq, EmitState.init]
      · simp [he, ha, EmitState.seq, EmitState.init]

/-- The batch fold started from any state factors through `EmitState.seq`. -/
lemma emit_foldl_seq (label_to_name : List (Nat × String))
    (class_codes : List (String × Nat)) (config : Config) (fb ua : Bool)
    (choose : String → String) (st : EmitState) (files : List (String × Option Mask)) :
    files.foldl (emit_step label_to_name class_codes config fb ua choose) st
      = st.seq (emit_run label_to_name class_codes config fb ua choose files) := by
  induction files generalizing st with
  | nil => simp [emit_run, EmitState.seq_init_right]
  | cons f fs ih =>
    rw [List.foldl_cons, ih, emit_step_seq, EmitState.seq_assoc]
    congr 1
    rw [← ih, emit_run, List.foldl_cons]

/-- The batch over a concatenation is the two batches combined. -/
lemma emit_run_append (label_to_name : List (Nat × String))
    (class_codes : List (String × Nat)) (config : Config) (fb ua : Bool)
    (choose : String → String) (l1 l2 : List (String × Option Mask)) :
    emit_run label_to_name class_codes config fb ua choose (l1 ++ l2)
      = (emit_run label_to_name class_codes config fb ua choose l1).seq
        (emit_run label_to_name class_codes config fb ua choose l2) := by
  rw [emit_run, List.foldl_append, ← emit_run, emit_foldl_seq]

/-- Each iteration bumps `processed_files` by at most one. -/
lemma emit_step_processed_le (label_to_name : List (Nat × String))
    (class_codes : List (String × Nat)) (config : Config) (fb ua : Bool)
    (choose : String → String) (f : String × Option Mask) :
    (emit_step label_to_name class_codes config fb ua choose EmitState.init f).processed ≤ 1 := by
  unfold emit_step
  cases process_mask f.1 label_to_name class_codes config f.2 fb with
  | none => simp [EmitState.init]
  | some prompt =>
    by_cases he : pyEndsWith prompt ": " = true
    · simp [he, EmitState.init]
    · simp [he, EmitState.init]

/-- The run never counts more processed files than it saw. -/
lemma emit_run_processed_le (label_to_name : List (Nat × String))
    (class_codes : List (String × Nat)) (config : Config) (fb ua : Bool)
    (choose : String → String) (files : List (String × Option Mask)) :
    (emit_run label_to_name class_codes config fb ua choose files).processed
      ≤ files.length := by
  induction files with
  | nil => simp [emit_run, EmitState.init]
  | cons f fs ih =>
    rw [emit_run, List.foldl_cons, emit_foldl_seq]
    have := emit_step_processed_le label_to_name class_codes config fb ua choose f
    simp only [EmitState.seq, List.length_cons]
    omega

/-! ## Claim C10 -/

/-- C10: an unreadable mask file (the loader returns `None`) produces no
output record, leaves `processed_files` untouched, adds exactly 1 to the
run's `Filtered out` figure (the script's aggregate failed/filtered
counter), logs the load error, and the batch continues over the remaining
files and completes: the run equals the run without the unreadable file
except for that log line and counter. -/
theorem c10_unreadable_file_skipped (label_to_name : List (Nat × String))
    (class_codes : List (String × Nat)) (config : Config) (fb : Bool)
    (choose : String → String) (l1 l2 : List (String × Option Mask))
    (mask_name cn : String) (ci : Nat)
    (h1 : extract_class_name mask_name = some cn)
    (h2 : class_codes.lookup cn = some ci) :
    (emit_run label_to_name class_codes config fb false choose
        (l1 ++ (mask_name, (none : Option Mask)) :: l2)).records
      = (emit_run label_to_name class_codes config fb false choose (l1 ++ l2)).records ∧
    (emit_run label_to_name class_codes config fb false choose
        (l1 ++ (mask_name, (none : Option Mask)) :: l2)).processed
      = (emit_run label_to_name class_codes config fb false choose (l1 ++ l2)).processed ∧
    filtered_out (l1 ++ (mask_name, (none : Option Mask)) :: l2)
        (emit_run label_to_name class_codes config fb false choose
          (l1 ++ (mask_name, (none : Option Mask)) :: l2))
      = filtered_out (l1 ++ l2)
          (emit_run label_to_name class_codes config fb false choose (l1 ++ l2)) + 1 ∧
    ("\nError: Could not load mask at " ++ mask_name)
      ∈ (emit_run label_to_name class_codes config fb false choose
          (l1 ++ (mask_name, (none : Option Mask)) :: l2)).logs := by
  have hbad : emit_step label_to_name class_codes config fb false choose EmitState.init
      (mask_name, (none : Option Mask))
      = ⟨[], 0, 0, ["\nError: Could not load mask at " ++ mask_name]⟩ := by
    unfold emit_step process_mask process_mask_log
    rw [h1]; dsimp only; rw [h2]; dsimp only
    simp [EmitState.init]
  have hsplit : emit_run label_to_name class_codes config fb false choose
      (l1 ++ (mask_name, (none : Option Mask)) :: l2)
      = (emit_run label_to_name class_codes config fb false choose l1).seq
        ((⟨[], 0, 0, ["\nError: Could not load mask at " ++ mask_name]⟩ : EmitState).seq
          (emit_run label_to_name class_codes config fb false choose l2)) := by
    rw [emit_run_append]
    congr 1
    rw [emit_run, List.foldl_cons, emit_foldl_seq, hbad]
  have hsplit2 := emit_run_append label_to_name class_codes config fb false choose l1 l2
  have hp1 := emit_run_processed_le label_to_name class_codes config fb false choose l1
  have hp2 := emit_run_processed_le label_to_name class_codes config fb false choose l2
  refine ⟨?_, ?_, ?_, ?_⟩
  · rw [hsplit, hsplit2]; simp [EmitState.seq]
  · rw [hsplit, hsplit2]; simp [EmitState.seq]
  · rw [filtered_out, filtered_out, hsplit, hsplit2]
    simp only [EmitState.seq, List.length_append, List.length_cons]
    omega
  · rw [hsplit]
    simp [EmitState.seq]

/-- C10 witness: a two-file batch whose first file is unreadable still emits
the second file's record, counts one file as filtered out, and logs the
error. -/
theorem c10_witness :
    (emit_run [(3, "RBC_marker")] [("CD235a_RBC", 3)] cfgDefault false false (fun _ => "")
        [("CD235a_RBC_0_mask.png", (none : Option Mask)),
         ("CD235a_RBC_1_mask.png", some ⟨[[0, 5]]⟩)]).records
      = (emit_run [(3, "RBC_marker")] [("CD235a_RBC", 3)] cfgDefault false false (fun _ => "")
          [("CD235a_RBC_1_mask.png", some ⟨[[0, 5]]⟩)]).records ∧
    (emit_run [(3, "RBC_marker")] [("CD235a_RBC", 3)] cfgDefault false false (fun _ => "")
        [("CD235a_RBC_0_mask.png", (none : Option Mask)),
         ("CD235a_RBC_1_mask.png", some ⟨[[0, 5]]⟩)]).processed
      = (emit_run [(3, "RBC_marker")] [("CD235a_RBC", 3)] cfgDefault false false (fun _ => "")
          [("CD235a_RBC_1_mask.png", some ⟨[[0, 5]]⟩)]).processed ∧
    filtered_out
        [("CD235a_RBC_0_mask.png", (none : Option Mask)),
         ("CD235a_RBC_1_mask.png", some ⟨[[0, 5]]⟩)]
        (emit_run [(3, "RBC_marker")] [("CD235a_RBC", 3)] cfgDefault false false (fun _ => "")
          [("CD235a_RBC_0_mask.png", (none : Option Mask)),
           ("CD235a_RBC_1_mask.png", some ⟨[[0, 5]]⟩)])
      = filtered_out [("CD235a_RBC_1_mask.png", some ⟨[[0, 5]]⟩)]
          (emit_run [(3, "RBC_marker")] [("CD235a_RBC", 3)] cfgDefault false false (fun _ => "")
            [("CD235a_RBC_1_mask.png", some ⟨[[0, 5]]⟩)]) + 1 ∧
    ("\nError: Could not load mask at " ++ "CD235a_RBC_0_mask.png")
      ∈ (emit_run [(3, "RBC_marker")] [("CD235a_RBC", 3)] cfgDefault false false (fun _ => "")
          [("CD235a_RBC_0_mask.png", (none : Option Mask)),
           ("CD235a_RBC_1_mask.png", some ⟨[[0, 5]]⟩)]).logs :=
  c10_unreadable_file_skipped [(3, "RBC_marker")] [("CD235a_RBC", 3)] cfgDefault false
    (fun _ => "") [] [("CD235a_RBC_1_mask.png", some ⟨[[0, 5]]⟩)]
    "CD235a_RBC_0_mask.png" "CD235a_RBC" 3 (by decide) (by decide)

end SegPath
